import Mathlib

/-!
Shallow embedding of the DoctorListingPage application core
(`src/src/App.jsx`, with its close variant `src/unnamed/part_000`).

The embedding covers the data model (`DoctorRecord`, the filter/sort/search
criteria), the filter-and-sort pipeline of the `useEffect` at
`App.jsx:60-101` (`applyQuery`), the URL serialization (`App.jsx:104-123`)
and deserialization (`App.jsx:127-153`), the payload transformation of
`fetchDoctors` (`App.jsx:30-43`) including its error path
(`App.jsx:47-53`), and the sort-state operations (`handleSortChange`,
`clearAllFilters`).

JavaScript particulars modelled explicitly:
  * `Array.prototype.sort` with a numeric comparator is a stable sort
    (required by the ECMAScript spec); a stable sort with a total preorder
    comparator has a uniquely determined output, so it is embedded as
    `List.insertionSort` over the corresponding `≤` relation.
  * `parseInt(s) || 0` : `parseInt` takes the longest leading (signed)
    digit run after leading whitespace and yields NaN otherwise; `|| 0`
    turns NaN (and 0 itself) into 0.  Embedded as an `Option Int` parse
    followed by `Option.getD 0`.
  * string truthiness (`if (searchQuery)`, `s || dflt`) : the empty string
    is falsy.
  * optional chaining `a?.b[c]` short-circuits the whole chain, but
    `doctor.specialities[0]` (no `?` before the index) throws a TypeError
    when `specialities` is absent; the per-item transform is therefore
    `Except`-valued.
  * `String.prototype.toLowerCase` is embedded as `String.toLower`
    (ASCII lowercasing, which agrees with JS on the alphabet used here).

The `rating` field of the richer variant (`App.jsx:42`) is a
`Math.random()` UI decoration not referenced by any filter, sort or URL
operation; it is omitted from the record model.
-/

namespace DoctorListing

/-- JS `hay.includes(needle)` helper: `leadMatch needle hay` holds when
`needle` occurs at the very front of `hay`. -/
def leadMatch : List Char → List Char → Bool
  | [], _ => true
  | _ :: _, [] => false
  | c :: cs, d :: ds => c == d && leadMatch cs ds

/-- `subMatch needle hay` : `needle` occurs contiguously somewhere in `hay`
(JS `String.prototype.includes`; the empty needle matches everything). -/
def subMatch (needle : List Char) : List Char → Bool
  | [] => leadMatch needle []
  | c :: rest => leadMatch needle (c :: rest) || subMatch needle rest

/-- JS `hay.includes(needle)`. -/
def jsIncludes (hay needle : String) : Bool :=
  subMatch needle.toList hay.toList

/-- JS `s.toLowerCase()` (ASCII range), written as a `List Char` map. -/
def jsToLower (s : String) : String := String.mk (s.toList.map Char.toLower)

/-- Whitespace recognizer used by JS `parseInt` / `trim`. -/
def isJsSpace (c : Char) : Bool :=
  c == ' ' || c == '\t' || c == '\n' || c == '\r'

/-- JS `parseInt(s)` in radix 10: skip leading whitespace, optional sign,
longest leading digit run; `none` models NaN. -/
def jsParseInt (s : String) : Option Int :=
  let l := s.toList.dropWhile isJsSpace
  let signAndRest : Int × List Char :=
    match l with
    | '-' :: t => (-1, t)
    | '+' :: t => (1, t)
    | t => (1, t)
  let digits := signAndRest.2.takeWhile Char.isDigit
  if digits.isEmpty then none
  else some (signAndRest.1 * digits.foldl (fun acc c => acc * 10 + ((c.toNat : Int) - 48)) 0)

/-- JS `parseInt(...) || 0` : NaN becomes 0 (and 0 stays 0). -/
def jsOrZero (o : Option Int) : Int := o.getD 0

/-- JS `o || dflt` on an optional string: absent and `""` are both falsy. -/
def jsOrStr (o : Option String) (dflt : String) : String :=
  match o with
  | some s => if s = "" then dflt else s
  | none => dflt

/-- JS `s.split(' ')[0]`: the characters before the first space (the whole
string when it has no space). -/
def jsSplitFirst (s : String) : String :=
  String.mk (s.toList.takeWhile fun c => c != ' ')

/-- Remove the first occurrence of a character (JS
`s.replace('₹', '')` with a single-character string pattern replaces only
the first occurrence). -/
def removeFirst (c : Char) : List Char → List Char
  | [] => []
  | d :: ds => if d == c then ds else d :: removeFirst c ds

/-- JS `s.trim()` on the character list. -/
def listTrim (l : List Char) : List Char :=
  ((l.dropWhile isJsSpace).reverse.dropWhile isJsSpace).reverse

/-- JS `s.replace('₹', '').trim()` as used on the `fees` payload field. -/
def stripRupee (s : String) : String :=
  String.mk (listTrim (removeFirst '₹' s.toList))

/-- The application-side doctor record produced by the `transformedData`
mapping (`App.jsx:30-43`). -/
structure DoctorRecord where
  id : String
  name : String
  specialty : String
  experience : Int
  location : String
  address : String
  fee : Int
  image : String
  languages : List String
  videoConsult : Bool
  inClinic : Bool
deriving DecidableEq

/-- The five specialty checkboxes (`filters` state, `App.jsx:8-14`). -/
structure Filters where
  ayurveda : Bool
  homeopath : Bool
  dentist : Bool
  physician : Bool
  gynecologist : Bool
deriving DecidableEq

/-- Initial `filters` state: all toggles off. -/
def Filters.default : Filters := ⟨false, false, false, false, false⟩

/-- `Object.entries(filters).filter(isActive).map(key)` (`App.jsx:64-66`):
the active specialty keys, in object-declaration order. -/
def activeSpecialtyFilters (f : Filters) : List String :=
  (if f.ayurveda then ["ayurveda"] else []) ++
  (if f.homeopath then ["homeopath"] else []) ++
  (if f.dentist then ["dentist"] else []) ++
  (if f.physician then ["physician"] else []) ++
  (if f.gynecologist then ["gynecologist"] else [])

/-- The `sorting` state (`App.jsx:16-19`): two booleans in the code. -/
structure Sorting where
  fees : Bool
  experience : Bool
deriving DecidableEq

/-- Initial `sorting` state. -/
def initialSorting : Sorting := ⟨false, false⟩

/-- The whole filter/sort/search criteria state. `consultationType` is a
raw string in the code (it can hold arbitrary values arriving from the
URL), with `"all"`, `"video"`, `"clinic"` the meaningful ones. -/
structure Criteria where
  filters : Filters
  consultationType : String
  sorting : Sorting
  searchQuery : String
deriving DecidableEq

/-- Default criteria: the initial state of all four criteria slots. -/
def defaultCriteria : Criteria :=
  { filters := Filters.default
    consultationType := "all"
    sorting := initialSorting
    searchQuery := "" }

/-- Specialty predicate (`App.jsx:69-74`): the record's lowercased
specialty contains at least one active key (lowercased). -/
def specialtyPred (keys : List String) (d : DoctorRecord) : Bool :=
  keys.any fun s => jsIncludes (jsToLower d.specialty) (jsToLower s)

/-- Specialty filter step (`App.jsx:68-75`): applied only when at least one
key is active. -/
def specialtyStep (f : Filters) (l : List DoctorRecord) : List DoctorRecord :=
  if (activeSpecialtyFilters f).length > 0 then
    l.filter (specialtyPred (activeSpecialtyFilters f))
  else l

/-- Consultation-mode predicate (`App.jsx:79-83`). -/
def consultationPred (t : String) (d : DoctorRecord) : Bool :=
  if t == "video" then d.videoConsult
  else if t == "clinic" then d.inClinic
  else true

/-- Consultation-mode filter step (`App.jsx:78-84`): applied only when the
mode is not `"all"`. -/
def consultationStep (t : String) (l : List DoctorRecord) : List DoctorRecord :=
  if t ≠ "all" then l.filter (consultationPred t) else l

/-- Search predicate of the richer variant (`src/src/App.jsx:88-91`):
case-insensitive substring match against name or specialty. -/
def searchPred (q : String) (d : DoctorRecord) : Bool :=
  jsIncludes (jsToLower d.name) (jsToLower q) ||
  jsIncludes (jsToLower d.specialty) (jsToLower q)

/-- Search predicate of the basic variant (`src/unnamed/part_000:87-89`):
case-insensitive substring match against name only. -/
def searchPredBasic (q : String) (d : DoctorRecord) : Bool :=
  jsIncludes (jsToLower d.name) (jsToLower q)

/-- Search filter step (`App.jsx:87-92`): applied only when the query
string is truthy, i.e. non-empty. -/
def searchStep (q : String) (l : List DoctorRecord) : List DoctorRecord :=
  if q ≠ "" then l.filter (searchPred q) else l

/-- Search filter step of the basic variant (`part_000:86-90`). -/
def searchStepBasic (q : String) (l : List DoctorRecord) : List DoctorRecord :=
  if q ≠ "" then l.filter (searchPredBasic q) else l

/-- Comparator relation of `result.sort((a, b) => a.fee - b.fee)`. -/
def feeLe (a b : DoctorRecord) : Prop := a.fee ≤ b.fee

instance : DecidableRel feeLe := fun a b => Int.decLe a.fee b.fee
instance : IsTotal DoctorRecord feeLe := ⟨fun a b => Int.le_total a.fee b.fee⟩
instance : IsTrans DoctorRecord feeLe := ⟨fun _ _ _ h1 h2 => Int.le_trans h1 h2⟩

/-- Comparator relation of `result.sort((a, b) => b.experience - a.experience)`. -/
def expGe (a b : DoctorRecord) : Prop := b.experience ≤ a.experience

instance : DecidableRel expGe := fun a b => Int.decLe b.experience a.experience
instance : IsTotal DoctorRecord expGe := ⟨fun a b => Int.le_total b.experience a.experience⟩
instance : IsTrans DoctorRecord expGe := ⟨fun _ _ _ h1 h2 => Int.le_trans h2 h1⟩

/-- Sorting step (`App.jsx:95-99`): `if (sorting.fees) ... else if
(sorting.experience) ...`.  JS `Array.prototype.sort` is stable, and a
stable sort under a total preorder has a unique output, here given by
`List.insertionSort`. -/
def sortStep (s : Sorting) (l : List DoctorRecord) : List DoctorRecord :=
  if s.fees then List.insertionSort feeLe l
  else if s.experience then List.insertionSort expGe l
  else l

/-- The whole recomputation pipeline of the `useEffect` at `App.jsx:60-101`
(richer variant): specialty filter, then consultation filter, then search
filter, then optional sort. -/
def applyQuery (doctors : List DoctorRecord) (c : Criteria) : List DoctorRecord :=
  sortStep c.sorting
    (searchStep c.searchQuery
      (consultationStep c.consultationType
        (specialtyStep c.filters doctors)))

/-- The same pipeline with the basic variant's search predicate
(`part_000:59-97`). -/
def applyQueryBasic (doctors : List DoctorRecord) (c : Criteria) : List DoctorRecord :=
  sortStep c.sorting
    (searchStepBasic c.searchQuery
      (consultationStep c.consultationType
        (specialtyStep c.filters doctors)))

/-- Specialty pass condition as a per-record predicate: `true` when no key
is active, the specialty predicate otherwise. -/
def specialtyPass (f : Filters) (d : DoctorRecord) : Bool :=
  if (activeSpecialtyFilters f).length > 0 then
    specialtyPred (activeSpecialtyFilters f) d
  else true

/-- Consultation pass condition as a per-record predicate. -/
def consultationPass (t : String) (d : DoctorRecord) : Bool :=
  if t ≠ "all" then consultationPred t d else true

/-- Search pass condition as a per-record predicate (richer variant). -/
def searchPass (q : String) (d : DoctorRecord) : Bool :=
  if q ≠ "" then searchPred q d else true

/-- Conjunction (logical AND) of the three active predicates: specialty,
consultation mode, search. -/
def combinedPred (c : Criteria) (d : DoctorRecord) : Bool :=
  specialtyPass c.filters d && consultationPass c.consultationType d &&
    searchPass c.searchQuery d

/-- A URL query string, abstracted as its ordered list of key/value
parameters (`URLSearchParams`; `toString` of the empty list is `""`). -/
def paramGet (ps : List (String × String)) (k : String) : Option String :=
  (ps.find? fun p => p.1 == k).map Prod.snd

/-- URL serialization (`App.jsx:104-123`): one parameter per active
specialty key, `consultation-type` when not `"all"`, a marker per active
sort flag, `search` when non-empty, in the code's insertion order. -/
def serializeToURL (c : Criteria) : List (String × String) :=
  (if c.filters.ayurveda then [("filter-specialty-ayurveda", "true")] else []) ++
  (if c.filters.homeopath then [("filter-specialty-homeopath", "true")] else []) ++
  (if c.filters.dentist then [("filter-specialty-dentist", "true")] else []) ++
  (if c.filters.physician then [("filter-specialty-physician", "true")] else []) ++
  (if c.filters.gynecologist then [("filter-specialty-gynecologist", "true")] else []) ++
  (if c.consultationType ≠ "all" then [("consultation-type", c.consultationType)] else []) ++
  (if c.sorting.fees then [("sort-fees", "true")] else []) ++
  (if c.sorting.experience then [("sort-experience", "true")] else []) ++
  (if c.searchQuery ≠ "" then [("search", c.searchQuery)] else [])

/-- Sorting part of the URL deserialization (`App.jsx:144-147`): each flag
is set independently from its own marker parameter. -/
def deserializeSorting (ps : List (String × String)) : Sorting :=
  { fees := paramGet ps "sort-fees" == some "true"
    experience := paramGet ps "sort-experience" == some "true" }

/-- Full URL deserialization (`App.jsx:127-153`): specialty booleans from
marker presence, consultation type kept at `"all"` unless the parameter is
truthy, sorting from the two markers, search kept at `""` unless truthy. -/
def deserializeFromURL (ps : List (String × String)) : Criteria :=
  { filters :=
      { ayurveda := paramGet ps "filter-specialty-ayurveda" == some "true"
        homeopath := paramGet ps "filter-specialty-homeopath" == some "true"
        dentist := paramGet ps "filter-specialty-dentist" == some "true"
        physician := paramGet ps "filter-specialty-physician" == some "true"
        gynecologist := paramGet ps "filter-specialty-gynecologist" == some "true" }
    consultationType :=
      match paramGet ps "consultation-type" with
      | some v => if v = "" then "all" else v
      | none => "all"
    sorting := deserializeSorting ps
    searchQuery :=
      match paramGet ps "search" with
      | some v => if v = "" then "" else v
      | none => "" }

/-- `handleSortChange` (`App.jsx:169-174`): sets exactly the flag matching
the argument. -/
def handleSortChange (sortType : String) : Sorting :=
  { fees := sortType == "fees", experience := sortType == "experience" }

/-- `clearAllFilters` effect on the sorting slot (`App.jsx:203-206`). -/
def clearAllSorting : Sorting := ⟨false, false⟩

/-- Sorting states reachable through the component's operations, with URL
deserialization allowed from any query string. -/
inductive SortingReachable : Sorting → Prop
  | init : SortingReachable initialSorting
  | sortChange (s : String) : SortingReachable (handleSortChange s)
  | clear : SortingReachable clearAllSorting
  | deser (ps : List (String × String)) : SortingReachable (deserializeSorting ps)

/-- Sorting states reachable when URL deserialization is restricted to
query strings that do not carry both sort markers set to `"true"` (the
serializer itself never produces both). -/
inductive SortingReachableSafe : Sorting → Prop
  | init : SortingReachableSafe initialSorting
  | sortChange (s : String) : SortingReachableSafe (handleSortChange s)
  | clear : SortingReachableSafe clearAllSorting
  | deser (ps : List (String × String))
      (h : paramGet ps "sort-fees" ≠ some "true" ∨
           paramGet ps "sort-experience" ≠ some "true") :
      SortingReachableSafe (deserializeSorting ps)

/-- One entry of the payload's `specialities` array. -/
structure SpecialityEntry where
  name : String
deriving DecidableEq

/-- Nested `clinic.address` object of the payload. -/
structure ClinicAddress where
  locality : Option String
deriving DecidableEq

/-- Nested `clinic` object of the payload. -/
structure Clinic where
  name : Option String
  address : Option ClinicAddress
deriving DecidableEq

/-- One element of the fetched JSON array, with every field the transform
touches modelled as optional (absent = JS `undefined`). -/
structure PayloadItem where
  id : String
  name : String
  specialities : Option (List SpecialityEntry)
  experience : Option String
  fees : Option String
  photo : Option String
  languages : Option (List String)
  video_consult : Option Bool
  in_clinic : Option Bool
  clinic : Option Clinic
deriving DecidableEq

/-- The per-item transform of `fetchDoctors` (`App.jsx:30-43`).
`doctor.specialities[0]?.name` indexes `specialities` before the optional
chain, so an absent `specialities` field throws (modelled as
`Except.error`); every other access is optional-chained or defaulted. -/
def transformItem (d : PayloadItem) : Except Unit DoctorRecord :=
  match d.specialities with
  | none => Except.error ()
  | some specs =>
      Except.ok
        { id := d.id
          name := d.name
          specialty := jsOrStr (specs.head?.map SpecialityEntry.name) ""
          experience := jsOrZero (d.experience.bind fun e => jsParseInt (jsSplitFirst e))
          location := jsOrStr ((d.clinic.bind Clinic.address).bind ClinicAddress.locality) ""
          address := jsOrStr (d.clinic.bind Clinic.name) ""
          fee := jsOrZero (d.fees.bind fun f => jsParseInt (stripRupee f))
          image := jsOrStr d.photo "https://via.placeholder.com/80"
          languages := d.languages.getD []
          videoConsult := d.video_consult.getD false
          inClinic := d.in_clinic.getD false }

/-- `data.map doctor => ...` inside the `try` block: one thrown item aborts
the whole mapping. -/
def transformAll : List PayloadItem → Except Unit (List DoctorRecord)
  | [] => Except.ok []
  | d :: ds =>
      match transformItem d with
      | Except.error e => Except.error e
      | Except.ok r =>
          match transformAll ds with
          | Except.error e => Except.error e
          | Except.ok rs => Except.ok (r :: rs)

/-- The state slots written by `fetchDoctors` (`App.jsx:22-57`). -/
structure LoadState where
  doctors : List DoctorRecord
  filteredDoctors : List DoctorRecord
  isLoading : Bool
deriving DecidableEq

/-- The whole `fetchDoctors` flow on a resolved outcome: the argument is
`Except.error` for a network/decoding/shape failure, `Except.ok data` for a
parsed array.  The `catch` block sets both lists empty; the `finally`
block clears the loading flag on every path. -/
def fetchDoctors (response : Except Unit (List PayloadItem)) : LoadState :=
  match response.bind transformAll with
  | Except.ok recs => { doctors := recs, filteredDoctors := recs, isLoading := false }
  | Except.error _ => { doctors := [], filteredDoctors := [], isLoading := false }

/-- Search pass condition of the basic variant as a per-record predicate. -/
def searchPassBasic (q : String) (d : DoctorRecord) : Bool :=
  if q ≠ "" then searchPredBasic q d else true

/-- Conjunction of the three active predicates, basic variant. -/
def combinedPredBasic (c : Criteria) (d : DoctorRecord) : Bool :=
  specialtyPass c.filters d && consultationPass c.consultationType d &&
    searchPassBasic c.searchQuery d

/-- Test fixture: a doctor record with the given name, specialty,
experience, fee and consultation flags. -/
def sampleDoc (nm sp : String) (years fee : Int) (vid clin : Bool) : DoctorRecord :=
  { id := nm, name := nm, specialty := sp, experience := years, location := ""
    address := "", fee := fee, image := "", languages := []
    videoConsult := vid, inClinic := clin }

def docAnna : DoctorRecord := sampleDoc "Anna Smith" "Dentist" 5 300 true false

def docHannah : DoctorRecord := sampleDoc "DR. HANNAH" "Physician" 10 100 false true

def docBob : DoctorRecord := sampleDoc "Bob" "Ayurveda" 3 100 true true

def docCarol : DoctorRecord := sampleDoc "Carol" "Homeopath" 7 100 false true

/-- Criteria with dentist toggled, fee sorting and search "ann": the
round-trip example of the spec. -/
def c3criteria : Criteria :=
  { filters := { Filters.default with dentist := true }
    consultationType := "all"
    sorting := { fees := true, experience := false }
    searchQuery := "ann" }

/-- Criteria whose only non-default slot is fee-ascending sorting. -/
def cFees : Criteria := { defaultCriteria with sorting := ⟨true, false⟩ }

/-- Criteria whose only non-default slot is experience-descending sorting. -/
def cExp : Criteria := { defaultCriteria with sorting := ⟨false, true⟩ }

/-- Filters with dentist and physician toggled on. -/
def dentistPhysician : Filters :=
  { Filters.default with dentist := true, physician := true }

/-- Payload item with a non-numeric experience string and absent fees. -/
def malformedItem : PayloadItem :=
  { id := "d1", name := "X", specialities := some []
    experience := some "not a number", fees := none, photo := none
    languages := none, video_consult := none, in_clinic := none, clinic := none }

/-- Payload item lacking the `specialities` field entirely. -/
def missingSpecItem : PayloadItem :=
  { malformedItem with id := "d2", specialities := none }

/-- A well-formed payload item. -/
def goodItem : PayloadItem :=
  { id := "d3", name := "Good", specialities := some [⟨"Dentist"⟩]
    experience := some "13 Years of experience", fees := some "₹ 500"
    photo := none, languages := some ["English"], video_consult := some true
    in_clinic := some false, clinic := none }

/-! ## Helper lemmas -/

lemma specialtyStep_eq (f : Filters) (l : List DoctorRecord) :
    specialtyStep f l = l.filter (specialtyPass f) := by
  by_cases h : (activeSpecialtyFilters f).length > 0
  · rw [specialtyStep, if_pos h]
    exact List.filter_congr fun d _ => by rw [specialtyPass, if_pos h]
  · rw [specialtyStep, if_neg h]
    have hp : specialtyPass f = fun _ => true :=
      funext fun d => by rw [specialtyPass, if_neg h]
    rw [hp, List.filter_true]

lemma consultationStep_eq (t : String) (l : List DoctorRecord) :
    consultationStep t l = l.filter (consultationPass t) := by
  by_cases h : t ≠ "all"
  · rw [consultationStep, if_pos h]
    exact List.filter_congr fun d _ => by rw [consultationPass, if_pos h]
  · rw [consultationStep, if_neg h]
    have hp : consultationPass t = fun _ => true :=
      funext fun d => by rw [consultationPass, if_neg h]
    rw [hp, List.filter_true]

lemma searchStep_eq (q : String) (l : List DoctorRecord) :
    searchStep q l = l.filter (searchPass q) := by
  by_cases h : q ≠ ""
  · rw [searchStep, if_pos h]
    exact List.filter_congr fun d _ => by rw [searchPass, if_pos h]
  · rw [searchStep, if_neg h]
    have hp : searchPass q = fun _ => true :=
      funext fun d => by rw [searchPass, if_neg h]
    rw [hp, List.filter_true]

lemma searchStepBasic_eq (q : String) (l : List DoctorRecord) :
    searchStepBasic q l = l.filter (searchPassBasic q) := by
  by_cases h : q ≠ ""
  · rw [searchStepBasic, if_pos h]
    exact List.filter_congr fun d _ => by rw [searchPassBasic, if_pos h]
  · rw [searchStepBasic, if_neg h]
    have hp : searchPassBasic q = fun _ => true :=
      funext fun d => by rw [searchPassBasic, if_neg h]
    rw [hp, List.filter_true]

lemma applyQuery_eq (L : List DoctorRecord) (c : Criteria) :
    applyQuery L c = sortStep c.sorting (L.filter (combinedPred c)) := by
  unfold applyQuery
  rw [specialtyStep_eq, consultationStep_eq, searchStep_eq, List.filter_filter,
    List.filter_filter]
  congr 1
  apply List.filter_congr
  intro d _
  simp [combinedPred, Bool.and_comm, Bool.and_left_comm, Bool.and_assoc]

lemma applyQueryBasic_eq (L : List DoctorRecord) (c : Criteria) :
    applyQueryBasic L c = sortStep c.sorting (L.filter (combinedPredBasic c)) := by
  unfold applyQueryBasic
  rw [specialtyStep_eq, consultationStep_eq, searchStepBasic_eq, List.filter_filter,
    List.filter_filter]
  congr 1
  apply List.filter_congr
  intro d _
  simp [combinedPredBasic, Bool.and_comm, Bool.and_left_comm, Bool.and_assoc]

lemma filter_fee_orderedInsert (k : Int) (x : DoctorRecord) (m : List DoctorRecord) :
    (List.orderedInsert feeLe x m).filter (fun d => d.fee == k)
      = if x.fee == k then x :: m.filter (fun d => d.fee == k)
        else m.filter (fun d => d.fee == k) := by
  induction m with
  | nil => by_cases hk : x.fee = k <;> simp [List.orderedInsert, hk]
  | cons y ys ih =>
      by_cases hxy : feeLe x y
      · rw [List.orderedInsert, if_pos hxy]
        by_cases hk : x.fee = k <;> simp [List.filter_cons, hk]
      · rw [List.orderedInsert, if_neg hxy, List.filter_cons, List.filter_cons, ih]
        by_cases hy : y.fee = k
        · have hx : ¬x.fee = k := fun hx => hxy (by simp [feeLe, hx, hy])
          simp [hy, hx]
        · by_cases hx : x.fee = k <;> simp [hy, hx]

lemma filter_fee_insertionSort (k : Int) (l : List DoctorRecord) :
    (List.insertionSort feeLe l).filter (fun d => d.fee == k)
      = l.filter (fun d => d.fee == k) := by
  induction l with
  | nil => rfl
  | cons x xs ih =>
      rw [List.insertionSort, filter_fee_orderedInsert, List.filter_cons, ih]

lemma transformAll_error_of_mem {data : List PayloadItem} {d : PayloadItem}
    (hmem : d ∈ data) (he : transformItem d = Except.error ()) :
    transformAll data = Except.error () := by
  induction data with
  | nil => cases hmem
  | cons x xs ih =>
      rw [transformAll]
      rcases List.mem_cons.mp hmem with rfl | hx
      · rw [he]
      · cases htx : transformItem x with
        | error e => cases e; rfl
        | ok r => rw [ih hx]

/-! ## Claim theorems -/

/-- Claim C1: for every raw list `L` and criteria `c`, the recomputation
pipeline returns the subsequence of `L` containing exactly the records
satisfying the conjunction (logical AND) of the active specialty,
consultation-mode and search predicates, then optionally sorted; and
re-running on identical inputs yields an identical output.  Both source
variants are covered. -/
theorem applyQuery_correct (L : List DoctorRecord) (c : Criteria) :
    applyQuery L c = sortStep c.sorting (L.filter (combinedPred c)) ∧
    applyQueryBasic L c = sortStep c.sorting (L.filter (combinedPredBasic c)) ∧
    (L.filter (combinedPred c)).Sublist L ∧
    (L.filter (combinedPredBasic c)).Sublist L ∧
    applyQuery L c = applyQuery L c ∧
    applyQueryBasic L c = applyQueryBasic L c :=
  ⟨applyQuery_eq L c, applyQueryBasic_eq L c, List.filter_sublist L,
    List.filter_sublist L, rfl, rfl⟩

/-- Claim C2, counterexample: deserializing the hand-crafted query string
`sort-fees=true&sort-experience=true` produces a reachable sorting state
with both sort indicators simultaneously active, so the invariant as
claimed fails for `deserializeFromURL` on arbitrary query strings. -/
theorem sortExclusive_cex :
    SortingReachable ⟨true, true⟩ ∧
    (Sorting.mk true true).fees = true ∧ (Sorting.mk true true).experience = true := by
  refine ⟨?_, rfl, rfl⟩
  have h := SortingReachable.deser [("sort-fees", "true"), ("sort-experience", "true")]
  have he : deserializeSorting [("sort-fees", "true"), ("sort-experience", "true")]
      = ⟨true, true⟩ := by decide
  rwa [he] at h

/-- Claim C2, amended: in every sorting state reachable by initialization,
`handleSortChange`, `clearAll`, and URL deserialization from a query
string that does not carry both sort markers set to `"true"`, the two sort
indicators are never simultaneously active. -/
theorem sortExclusive_amended (s : Sorting) (h : SortingReachableSafe s) :
    ¬(s.fees = true ∧ s.experience = true) := by
  rintro ⟨h1, h2⟩
  cases h with
  | init => simp [initialSorting] at h1
  | clear => simp [clearAllSorting] at h1
  | sortChange str =>
      simp only [handleSortChange, beq_iff_eq] at h1 h2
      rw [h1] at h2
      exact absurd h2 (by decide)
  | deser ps hps =>
      simp only [deserializeSorting, beq_iff_eq] at h1 h2
      rcases hps with hp | hp
      · exact hp h1
      · exact hp h2

/-- Witness for the amended Claim C2 at the initial sorting state. -/
theorem sortExclusive_amended_witness :
    ¬(initialSorting.fees = true ∧ initialSorting.experience = true) :=
  sortExclusive_amended initialSorting SortingReachableSafe.init

/-- Claim C3: serializing the criteria value with dentist active, fee
sorting and search `"ann"` and deserializing the produced query string
reproduces exactly that value; serializing the all-default criteria value
produces an empty query string. -/
theorem urlRoundTrip :
    deserializeFromURL (serializeToURL c3criteria) = c3criteria ∧
    serializeToURL defaultCriteria = [] := by
  decide

/-- Claim C4: when fee-ascending sorting is active, every adjacent pair of
the output is nondecreasing in fee, and records with equal fees keep their
pre-sort relative order (the per-fee-value sublists of the output coincide
with those of the filtered, unsorted list). -/
theorem sortFees_sorted_stable (L : List DoctorRecord) (c : Criteria)
    (h : c.sorting.fees = true) :
    List.Chain' (fun a b : DoctorRecord => a.fee ≤ b.fee) (applyQuery L c) ∧
    ∀ k : Int, (applyQuery L c).filter (fun d => d.fee == k)
      = (L.filter (combinedPred c)).filter (fun d => d.fee == k) := by
  rw [applyQuery_eq]
  have hs : sortStep c.sorting (L.filter (combinedPred c))
      = List.insertionSort feeLe (L.filter (combinedPred c)) := by
    simp [sortStep, h]
  rw [hs]
  exact ⟨List.Pairwise.chain' (List.sorted_insertionSort feeLe _),
    fun k => filter_fee_insertionSort k _⟩

/-- Witness for Claim C4 at a concrete list with a fee tie. -/
theorem sortFees_sorted_stable_witness :
    List.Chain' (fun a b : DoctorRecord => a.fee ≤ b.fee)
      (applyQuery [docAnna, docBob, docCarol] cFees) ∧
    ∀ k : Int, (applyQuery [docAnna, docBob, docCarol] cFees).filter (fun d => d.fee == k)
      = ([docAnna, docBob, docCarol].filter (combinedPred cFees)).filter
          (fun d => d.fee == k) :=
  sortFees_sorted_stable [docAnna, docBob, docCarol] cFees rfl

/-- Claim C5: when experience-descending sorting is active (and fee sorting
is not, as the code checks fees first), every adjacent pair of the output
is nonincreasing in experience. -/
theorem sortExperience_sorted (L : List DoctorRecord) (c : Criteria)
    (hf : c.sorting.fees = false) (he : c.sorting.experience = true) :
    List.Chain' (fun a b : DoctorRecord => b.experience ≤ a.experience) (applyQuery L c) := by
  rw [applyQuery_eq]
  have hs : sortStep c.sorting (L.filter (combinedPred c))
      = List.insertionSort expGe (L.filter (combinedPred c)) := by
    simp [sortStep, hf, he]
  rw [hs]
  exact List.Pairwise.chain' (List.sorted_insertionSort expGe _)

/-- Witness for Claim C5 at a concrete list. -/
theorem sortExperience_sorted_witness :
    List.Chain' (fun a b : DoctorRecord => b.experience ≤ a.experience)
      (applyQuery [docAnna, docBob, docCarol] cExp) :=
  sortExperience_sorted [docAnna, docBob, docCarol] cExp rfl rfl

/-- Claim C6: the search filter is a case-insensitive substring match
against the name (and, in the richer variant, also the specialty); the
empty search string matches every record; `"ann"` matches both
`"Anna Smith"` and `"DR. HANNAH"` in both variants. -/
theorem searchFilter_correct (q : String) (l : List DoctorRecord) :
    (q = "" → searchStep q l = l ∧ searchStepBasic q l = l) ∧
    (q ≠ "" →
      searchStep q l = l.filter (fun d =>
        jsIncludes (jsToLower d.name) (jsToLower q) ||
        jsIncludes (jsToLower d.specialty) (jsToLower q)) ∧
      searchStepBasic q l = l.filter (fun d =>
        jsIncludes (jsToLower d.name) (jsToLower q))) ∧
    (searchPred "ann" docAnna = true ∧ searchPredBasic "ann" docAnna = true ∧
     searchPred "ann" docHannah = true ∧ searchPredBasic "ann" docHannah = true) := by
  refine ⟨fun hq => ?_, fun hq => ?_, by decide, by decide, by decide, by decide⟩
  · simp [searchStep, searchStepBasic, hq]
  · exact ⟨by rw [searchStep, if_pos hq]; rfl, by rw [searchStepBasic, if_pos hq]; rfl⟩

/-- Witness for Claim C6 at the concrete query `"ann"`. -/
theorem searchFilter_correct_witness :
    searchStep "ann" [docAnna, docHannah] = [docAnna, docHannah].filter (fun d =>
      jsIncludes (jsToLower d.name) (jsToLower "ann") ||
      jsIncludes (jsToLower d.specialty) (jsToLower "ann")) ∧
    searchStepBasic "ann" [docAnna, docHannah] = [docAnna, docHannah].filter (fun d =>
      jsIncludes (jsToLower d.name) (jsToLower "ann")) :=
  (searchFilter_correct "ann" [docAnna, docHannah]).2.1 (by decide)

/-- Claim C7: the specialty filter with zero active keys passes every
record, and with dentist and physician both active a record passes exactly
when its lowercased specialty contains `"dentist"` or `"physician"` (the
union of the two single-key filters). -/
theorem specialtyFilter_correct (l : List DoctorRecord) :
    specialtyStep Filters.default l = l ∧
    specialtyStep dentistPhysician l =
      l.filter (fun d => jsIncludes (jsToLower d.specialty) "dentist" ||
        jsIncludes (jsToLower d.specialty) "physician") := by
  constructor
  · simp [specialtyStep, activeSpecialtyFilters, Filters.default]
  · have hact : activeSpecialtyFilters dentistPhysician = ["dentist", "physician"] := by
      decide
    have h1 : jsToLower "dentist" = "dentist" := by decide
    have h2 : jsToLower "physician" = "physician" := by decide
    rw [specialtyStep, hact, if_pos (by decide : ([("dentist" : String), "physician"]).length > 0)]
    apply List.filter_congr
    intro d _
    simp [specialtyPred, h1, h2]

/-- Claim C8: a payload item (with its `specialities` sequence present, as
the payload shape guarantees) whose experience string has no parseable
leading number and whose fees field is absent transforms, without error,
into a record with experience 0 and fee 0. -/
theorem malformedNumerics_defaulted (d : PayloadItem) (specs : List SpecialityEntry)
    (e : String) (hs : d.specialities = some specs) (he : d.experience = some e)
    (hnum : jsParseInt (jsSplitFirst e) = none) (hf : d.fees = none) :
    ∃ r : DoctorRecord, transformItem d = Except.ok r ∧ r.experience = 0 ∧ r.fee = 0 := by
  unfold transformItem
  rw [hs]
  exact ⟨_, rfl, by simp [he, hnum, jsOrZero], by simp [hf, jsOrZero]⟩

/-- Witness for Claim C8 at the spec's own example item. -/
theorem malformedNumerics_defaulted_witness :
    ∃ r : DoctorRecord, transformItem malformedItem = Except.ok r ∧
      r.experience = 0 ∧ r.fee = 0 :=
  malformedNumerics_defaulted malformedItem [] "not a number" rfl rfl (by decide) rfl

/-- Claim C9: on any failure of the load flow (rejected fetch, decoding
failure, or a transform that throws), both lists are set empty and the
loading flag is cleared, and the resulting state equals the state of a
successfully loaded empty list. -/
theorem loadFailure_resets (resp : Except Unit (List PayloadItem))
    (h : resp.bind transformAll = Except.error ()) :
    fetchDoctors resp = { doctors := [], filteredDoctors := [], isLoading := false } ∧
    fetchDoctors resp = fetchDoctors (Except.ok []) := by
  have hr : fetchDoctors resp = ⟨[], [], false⟩ := by
    simp only [fetchDoctors, h]
  exact ⟨hr, by rw [hr]; rfl⟩

/-- Witness for Claim C9 at a rejected fetch. -/
theorem loadFailure_resets_witness :
    fetchDoctors (Except.error ()) = { doctors := [], filteredDoctors := [], isLoading := false } ∧
    fetchDoctors (Except.error ()) = fetchDoctors (Except.ok []) :=
  loadFailure_resets (Except.error ()) rfl

/-- Claim C10: a payload item lacking the `specialities` field makes the
per-item transform throw, and one such item anywhere in the array makes
the whole load land in the catch path: both lists empty, loading cleared,
all well-formed items discarded. -/
theorem missingSpecialities_discards_all (data : List PayloadItem) (d : PayloadItem)
    (hmem : d ∈ data) (hnone : d.specialities = none) :
    transformItem d = Except.error () ∧
    fetchDoctors (Except.ok data)
      = { doctors := [], filteredDoctors := [], isLoading := false } := by
  have he : transformItem d = Except.error () := by
    unfold transformItem
    rw [hnone]
  refine ⟨he, ?_⟩
  have hall : (Except.ok data : Except Unit (List PayloadItem)).bind transformAll
      = Except.error () := transformAll_error_of_mem hmem he
  simp only [fetchDoctors, hall]

/-- Witness for Claim C10: one item without `specialities` discards the
well-formed item next to it. -/
theorem missingSpecialities_discards_all_witness :
    transformItem missingSpecItem = Except.error () ∧
    fetchDoctors (Except.ok [goodItem, missingSpecItem])
      = { doctors := [], filteredDoctors := [], isLoading := false } :=
  missingSpecialities_discards_all [goodItem, missingSpecItem] missingSpecItem
    (by decide) rfl

end DoctorListing
